import Mathlib

set_option linter.unusedVariables false

/-!
Verification of the "not kill tony" RoastBot repository.

The repository contains several near-duplicate TypeScript variants of a
chat "roast bot".  This file shallowly embeds the parts of the source the
claims are about:

* `Part002`   — the variant in `src/unnamed/part_002` (`types.ts`,
  `config.ts`, `personality-traits.ts`, `roast-bot.ts`): zod message
  schema, sliding-window rate limiter, personality-trait selection,
  response generation with local fallback, and `handleMessage`.
* `IndexTs`   — the `RoastBot` class in the "=== not kill tony ===" part of
  `src/index.ts`: lexical sentiment analysis, mood updates, memory,
  cooldowns, command handling, and the Redis-counter rate limiter.
* `Part004`   — the variant in `src/unnamed/part_004`: the clamped
  `calculateSentiment` and the cached user-profile store.
* `Roastbot2` — the message schema of `src/roastbot2.ts`.

JavaScript primitives used by the source (`toLowerCase`, `split`,
`includes`, first-occurrence `replace`, `trim`, `startsWith`, `endsWith`)
are modelled first, as structurally recursive functions on the string's
character list.  JavaScript numbers are modelled as `ℚ` (the source only
ever adds and compares decimal constants, which floats represent exactly),
timestamps (`Date.now()`) as `ℕ` milliseconds.  JavaScript `s.length` is
the model's character count (the source strings are ASCII, where the two
agree).
-/

/-! ## JavaScript string primitives -/

/-- JS `String.prototype.toLowerCase` (ASCII range; the source's word lists
and commands are ASCII). -/
def jsToLower (s : String) : String := String.mk (s.toList.map Char.toLower)

/-- Splitting on every occurrence of a single separator character, keeping
empty fragments, as JS `split(' ')` does. -/
def splitOnCharAux (sep : Char) : List Char → List Char → List String
  | [], acc => [String.mk acc.reverse]
  | c :: cs, acc =>
      if c = sep then String.mk acc.reverse :: splitOnCharAux sep cs []
      else splitOnCharAux sep cs (c :: acc)

/-- JS `content.split(' ')`. -/
def jsSplitOnSpace (s : String) : List String := splitOnCharAux ' ' s.toList []

/-- JS `text.split(/\s+/)`: maximal whitespace runs separate the fragments
(`none` as accumulator means a separator run is being skipped). -/
def splitWSRunsAux : List Char → Option (List Char) → List String
  | [], none => [""]
  | [], some acc => [String.mk acc.reverse]
  | c :: cs, none =>
      if c.isWhitespace then splitWSRunsAux cs none
      else splitWSRunsAux cs (some [c])
  | c :: cs, some acc =>
      if c.isWhitespace then String.mk acc.reverse :: splitWSRunsAux cs none
      else splitWSRunsAux cs (some (c :: acc))

/-- JS `text.split(/\s+/)`. -/
def jsSplitWS (s : String) : List String := splitWSRunsAux s.toList (some [])

/-- Whether `sub` occurs as a contiguous run inside `l`. -/
def infixOf (sub : List Char) : List Char → Bool
  | [] => sub.isEmpty
  | c :: t => sub.isPrefixOf (c :: t) || infixOf sub t

/-- JS `s.includes(sub)`. -/
def strContains (s sub : String) : Bool := infixOf sub.toList s.toList

/-- Replace the first occurrence of `target` (JS `String.prototype.replace`
with a string pattern replaces only the first occurrence; absent target
leaves the string unchanged). -/
def replaceFirstAux (target repl : List Char) : List Char → List Char
  | [] => if target.isEmpty then repl else []
  | c :: t =>
      if target.isPrefixOf (c :: t) then repl ++ (c :: t).drop target.length
      else c :: replaceFirstAux target repl t

/-- JS `s.replace(target, repl)` (string pattern: first occurrence only). -/
def jsReplace (s target repl : String) : String :=
  String.mk (replaceFirstAux target.toList repl.toList s.toList)

/-- JS `s.startsWith(pre)`. -/
def strStartsWith (s pre : String) : Bool := pre.toList.isPrefixOf s.toList

/-- JS `s.endsWith(suf)`. -/
def strEndsWith (s suf : String) : Bool := suf.toList.isSuffixOf s.toList

/-- JS `s.trim()` (whitespace stripped from both ends). -/
def jsTrim (s : String) : String :=
  String.mk (((s.toList.dropWhile Char.isWhitespace).reverse.dropWhile
    Char.isWhitespace).reverse)

/-- JS `s.slice(n)`. -/
def jsSlice (s : String) (n : Nat) : String := String.mk (s.toList.drop n)

/-- JS `s.length` (character count; the source strings are ASCII). -/
def jsLength (s : String) : Nat := s.toList.length

/-! ## Error taxonomy (spec §7) shared by the variants -/

/-- A zod `MessageSchema.parse` rejection (the content bounds are the only
checked constraints on otherwise well-typed input). -/
inductive ValidationError
  | contentTooShort
  | contentTooLong
deriving DecidableEq

/-- A failed generative-backend (OpenAI) call. -/
inductive BackendError
  | unavailable
deriving DecidableEq

/-- A failed durable-storage (Redis) operation. -/
inductive StorageError
  | fault
deriving DecidableEq

/-! ## `src/unnamed/part_002` — types.ts / config.ts / roast-bot.ts -/

namespace Part002

/-- `CONFIG.RATE_LIMIT_WINDOW` (ms). -/
def RATE_LIMIT_WINDOW : Nat := 60000

/-- `CONFIG.MAX_REQUESTS_PER_MINUTE`. -/
def MAX_REQUESTS_PER_MINUTE : Nat := 50

/-- The `rateLimits : Map<string, number[]>` field; a missing key reads as
`[]` (the source's `this.rateLimits.get(userId) || []`). -/
abbrev RateLimits := String → List Nat

/-- The empty `rateLimits` map the bot starts with. -/
def emptyRateLimits : RateLimits := fun _ => []

/-- `checkRateLimit` of `roast-bot.ts` (part_002 lines 218–234): filter the
user's recorded timestamps to those younger than the window, reject when the
configured maximum is reached, otherwise record `now` and admit.  Returns
the decision and the updated `rateLimits` map (on rejection the map is left
as it was: the source only calls `set` on the admit path). -/
def checkRateLimit (userId : String) (now : Nat) (rateLimits : RateLimits) :
    Bool × RateLimits :=
  let userRequests := rateLimits userId
  let recentRequests := userRequests.filter
    (fun time => now - time < RATE_LIMIT_WINDOW)
  if MAX_REQUESTS_PER_MINUTE ≤ recentRequests.length then
    (false, rateLimits)
  else
    (true, fun u => if u = userId then recentRequests ++ [now] else rateLimits u)

/-- The `rateLimits` map after a sequence of `checkRateLimit` calls, each
call a `(userId, Date.now())` pair. -/
def runState (calls : List (String × Nat)) (st : RateLimits) : RateLimits :=
  calls.foldl (fun s c => (checkRateLimit c.1 c.2 s).2) st

/-- The subsequence of calls that `checkRateLimit` admits. -/
def admitted : List (String × Nat) → RateLimits → List (String × Nat)
  | [], _ => []
  | c :: rest, st =>
      (if (checkRateLimit c.1 c.2 st).1 then [c] else []) ++
        admitted rest (checkRateLimit c.1 c.2 st).2

/-- The timestamps of the events in `evs` that belong to user `u`. -/
def admittedTimes (u : String) (evs : List (String × Nat)) : List Nat :=
  (evs.filter (fun e => e.1 == u)).map Prod.snd

/-- A `Message` after zod's shape checks: `mentions` is optional and
`timestamp` defaults to `Date.now()` (already applied here). -/
structure Message where
  content : String
  userId : String
  userName : String
  mentions : Option (List String)
  timestamp : Nat
deriving DecidableEq

/-- `MessageSchema.parse` (part_002 lines 4–10): content must satisfy
`z.string().min(1).max(2000)`; anything else of the right shape passes
unchanged. -/
def MessageSchema_parse (m : Message) : Except ValidationError Message :=
  if jsLength m.content < 1 then .error .contentTooShort
  else if 2000 < jsLength m.content then .error .contentTooLong
  else .ok m

structure NLPAnalysis where
  sentiment : ℚ
  topics : List String
  intent : String
  entities : List String
  technicalComplexity : ℚ
  codeDetected : Bool
  languagesDetected : List String
  toxicity : ℚ
deriving DecidableEq

/-- The optional `conditions` record of a `PersonalityTrait`. -/
structure TraitConditions where
  minSentiment : Option ℚ := none
  maxSentiment : Option ℚ := none
  timeOfDay : Option (List Nat) := none
deriving DecidableEq

structure PersonalityTrait where
  name : String
  level : ℚ
  responses : List String
  conditions : Option TraitConditions := none
deriving DecidableEq

/-- `PERSONALITY_TRAITS` (part_002 lines 89–124). -/
def PERSONALITY_TRAITS : List PersonalityTrait :=
  [{ name := "sarcastic"
     level := 0.8
     responses := [
       "Oh wow, {userName}, that code is *just perfect*... if you're trying to crash the server 🙄",
       "Interesting approach to {topic}... if by interesting you mean completely chaotic",
       "Have you considered a career in modern art? Because this code is quite abstract"]
     conditions := some { minSentiment := some (-0.5), maxSentiment := some 0.5 } },
   { name := "technical"
     level := 0.7
     responses := [
       "Your {language} implementation could use some design pattern love. Ever heard of {pattern}?",
       "Let's talk about that O(n^2) complexity. I'm sure the server enjoys taking naps.",
       "Interesting use of nested callbacks. Have you met our lord and savior, async/await?"] },
   { name := "encouraging"
     level := 0.6
     responses := [
       "Not bad! But let's make it even better by {improvement}",
       "You're on the right track with {concept}. Just needs a little tweaking.",
       "I see what you're trying to do! Here's a pro tip: {tip}"]
     conditions := some { minSentiment := some 0.3 } }]

/-- The trait filter of `selectPersonalityTrait` (part_002 lines 305–310),
JS truthiness included: `!trait.conditions?.minSentiment ||
analysis.sentiment >= trait.conditions.minSentiment` skips the bound when
it is absent — or when it is the falsy number 0 — and likewise for
`maxSentiment`. -/
def conditionsPass (sentiment : ℚ) (trait : PersonalityTrait) : Bool :=
  (match trait.conditions with
   | none => true
   | some c =>
       match c.minSentiment with
       | none => true
       | some m => m == 0 || decide (m ≤ sentiment)) &&
  (match trait.conditions with
   | none => true
   | some c =>
       match c.maxSentiment with
       | none => true
       | some m => m == 0 || decide (sentiment ≤ m))

/-- The spec's reading of the trait filter (§4.3): every *declared* bound
must hold — no JS-falsiness escape for a zero bound.  Kept separate from
`conditionsPass` so the code's policy can be compared against it. -/
def specConditionsSatisfied (sentiment : ℚ) (trait : PersonalityTrait) : Bool :=
  (match trait.conditions with
   | none => true
   | some c =>
       match c.minSentiment with
       | none => true
       | some m => decide (m ≤ sentiment)) &&
  (match trait.conditions with
   | none => true
   | some c =>
       match c.maxSentiment with
       | none => true
       | some m => decide (sentiment ≤ m))

/-- The spec's selection policy (§4.3): first trait whose declared
conditions are all satisfied, defaulting to the first trait of the set. -/
def specSelectPersonalityTrait (personality : List PersonalityTrait)
    (sentiment : ℚ) : Option PersonalityTrait :=
  (personality.find? (specConditionsSatisfied sentiment)).orElse
    (fun _ => personality.head?)

/-- `this.state.personality.find(...) || this.state.personality[0]` over an
arbitrary trait list (`none` models the `undefined` an empty list would
yield). -/
def selectPersonalityTraitIn (personality : List PersonalityTrait)
    (sentiment : ℚ) : Option PersonalityTrait :=
  (personality.find? (conditionsPass sentiment)).orElse
    (fun _ => personality.head?)

/-- Stand-in for `undefined`; never selected from the non-empty fixed
`PERSONALITY_TRAITS` the bot state carries. -/
def dummyTrait : PersonalityTrait := { name := "", level := 0, responses := [] }

/-- `selectPersonalityTrait` as the bot runs it: `this.state.personality`
is `PERSONALITY_TRAITS` (set in `initializeState`). -/
def selectPersonalityTrait (sentiment : ℚ) : PersonalityTrait :=
  (selectPersonalityTraitIn PERSONALITY_TRAITS sentiment).getD dummyTrait

/-- `selectResponseTemplate` (part_002 lines 312–320): the filter keeps
everything (its body returns `true`), and `rand` models the
`Math.floor(Math.random() * length)` draw. -/
def selectResponseTemplate (trait : PersonalityTrait) (rand : Nat) : String :=
  let validResponses := trait.responses.filter (fun _ => true)
  validResponses.getD (rand % validResponses.length) ""

/-- `processResponse` (part_002 lines 322–327). -/
def processResponse (response : String) (message : Message) : String :=
  jsTrim (jsReplace (jsReplace response "{userName}" message.userName)
    "{topic}" "coding")

/-- `getFallbackResponse` (part_002 lines 329–333): the selected trait's
first template with the placeholders substituted locally. -/
def getFallbackResponse (personality : PersonalityTrait) : String :=
  jsReplace (jsReplace (personality.responses.headD "") "{userName}" "developer")
    "{topic}" "coding"

/-- `getFallbackAnalysis` (part_002 lines 267–278). -/
def getFallbackAnalysis : NLPAnalysis :=
  { sentiment := 0
    topics := []
    intent := "unknown"
    entities := []
    technicalComplexity := 0
    codeDetected := false
    languagesDetected := []
    toxicity := 0 }

/-- `analyzeMessage` (part_002 lines 236–265): the backend oracle stands
for the OpenAI call together with the JSON parse of its reply; any failure
is caught and the fallback analysis returned. -/
def analyzeMessage (message : Message)
    (analysisBackend : String → Except BackendError NLPAnalysis) : NLPAnalysis :=
  match analysisBackend message.content with
  | .ok analysis => analysis
  | .error _ => getFallbackAnalysis

/-- `generateResponse` (part_002 lines 280–303): build the system prompt
from the selected trait and template, call the backend, post-process its
reply; any backend failure is caught and the local fallback returned. -/
def generateResponse (message : Message) (analysis : NLPAnalysis) (rand : Nat)
    (responseBackend : String → Except BackendError String) : String :=
  let personality := selectPersonalityTrait analysis.sentiment
  let template := selectResponseTemplate personality rand
  let prompt := "You are a code-roasting bot with a " ++ personality.name
    ++ " personality. Respond to the user's message using this template: "
    ++ template
  match responseBackend prompt with
  | .ok text => processResponse text message
  | .error _ => getFallbackResponse personality

/-- The catch-all reply of `handleMessage` (part_002 line 352). -/
def errorReply : String :=
  "Error processing message. But hey, at least it's not as bad as using PHP! 😉"

/-- The throttling notice (part_002 line 340). -/
def rateLimitReply : String :=
  "You're sending messages too quickly. Please wait a moment."

/-- `handleMessage` (part_002 lines 335–354): validate, rate-limit,
analyze, generate, record metrics; any error thrown in the body —
validation failure, or the `redis.hset` of `updateMetrics`
(`metricsStorage` here) — is caught and turned into the fixed apology
reply.  Backend failures never reach this catch: `analyzeMessage` and
`generateResponse` handle their own.  Returns the reply and the updated
rate-limit state. -/
def handleMessage (message : Message) (now rand : Nat)
    (rateLimits : RateLimits)
    (analysisBackend : String → Except BackendError NLPAnalysis)
    (responseBackend : String → Except BackendError String)
    (metricsStorage : Except StorageError Unit) : String × RateLimits :=
  match MessageSchema_parse message with
  | .error _ => (errorReply, rateLimits)
  | .ok validatedMessage =>
      let r := checkRateLimit validatedMessage.userId now rateLimits
      if !r.1 then (rateLimitReply, r.2)
      else
        let analysis := analyzeMessage validatedMessage analysisBackend
        let response := generateResponse validatedMessage analysis rand
          responseBackend
        match metricsStorage with
        | .error _ => (errorReply, r.2)
        | .ok _ => (response, r.2)

end Part002

/-! ## `src/index.ts` — the "=== not kill tony ===" `RoastBot` class -/

namespace IndexTs

/-- The message argument of `handleMessage`. -/
structure Message where
  content : String
  userId : String
  userName : String
  mentions : List String

/-- The `Memory` interface.  `longTerm` is a `Map<string, number>`; the
source always reads it as `get(name) || 0`, so it is modelled with that
default applied. -/
structure Memory where
  shortTerm : List String
  longTerm : String → Nat
  context : List String

structure PersonalityTrait where
  name : String
  level : ℚ
  responses : List String

structure NLPAnalysis where
  sentiment : ℚ
  topics : List String
  intent : String
  entities : List String

/-- The `EnhancedBotState` fields `handleMessage` reads or writes.
`cooldowns` is a `Map<string, number>` (absent key = `none`). The
`openAIConfig` model/token settings only parameterize backend calls, which
are modelled as oracles, so they are not carried here. -/
structure EnhancedBotState where
  moodLevel : ℚ
  lastResponses : List String
  cooldowns : String → Option Nat
  conversationHistory : List String
  memory : Memory
  personality : List PersonalityTrait
  learningRate : ℚ
  lastInteractionTime : Nat
  commandPrefix : String
  debugMode : Bool

/-- `cooldownDuration` (ms). -/
def cooldownDuration : Nat := 30000

/-- `maxMoodLevel`. -/
def maxMoodLevel : ℚ := 10

/-- `minMoodLevel`. -/
def minMoodLevel : ℚ := -10

/-- The initial `state` field of the class (timestamps parameterized over
the construction-time `Date.now()`). -/
def initialState (now : Nat) : EnhancedBotState :=
  { moodLevel := 0
    lastResponses := []
    cooldowns := fun _ => none
    conversationHistory := []
    memory := { shortTerm := [], longTerm := fun _ => 0, context := [] }
    personality := [
      { name := "sarcasm", level := 0.8, responses := [
          "Oh wow, {userName}, that's *totally* genius... 🙄",
          "Brilliant observation, {userName}. Did you figure that out all by yourself?"] },
      { name := "wit", level := 0.7, responses := [
          "I'd explain it to you, {userName}, but I'm all out of crayons.",
          "Your code is like a mystery novel, {userName}... full of bad practices and plot holes."] }]
    learningRate := 0.1
    lastInteractionTime := now
    commandPrefix := "!"
    debugMode := false }

def positiveWords : List String := ["good", "great", "awesome", "nice", "love"]

def negativeWords : List String := ["bad", "terrible", "hate", "awful", "worst"]

/-- `analyzeSentiment` (index.ts lines 265–279): ±0.5 per word-list hit over
the space-split lowercased content.  The running sum is NOT clamped. -/
def analyzeSentiment (content : String) : ℚ :=
  (jsSplitOnSpace (jsToLower content)).foldl
    (fun sentiment word =>
      let s1 := if positiveWords.contains word then sentiment + 0.5 else sentiment
      if negativeWords.contains word then s1 - 0.5 else s1) 0

def extractTopics (content : String) : List String :=
  ["code", "bug", "feature", "error", "testing", "deployment"].filter
    (fun topic => strContains (jsToLower content) topic)

def detectIntent (content : String) : String :=
  if strEndsWith content "?" then "question"
  else if strEndsWith content "!" then "exclamation"
  else "statement"

/-- `extractEntities`: words matching `/^[A-Z][a-z]+/` (an ASCII capital
followed by at least one ASCII lowercase letter). -/
def extractEntities (content : String) : List String :=
  (jsSplitOnSpace content).filter (fun w =>
    match w.toList with
    | c0 :: c1 :: _ => c0.isUpper && c1.isLower
    | _ => false)

/-- `analyzeMessage`'s placeholder simple analysis (the commented-out NLP
service call is dead code). -/
def analyzeMessage (content : String) : NLPAnalysis :=
  { sentiment := analyzeSentiment content
    topics := extractTopics content
    intent := detectIntent content
    entities := extractEntities content }

/-- `updateMood` (index.ts lines 304–312): add the sentiment and clamp into
`[minMoodLevel, maxMoodLevel]`. -/
def updateMood (moodLevel sentiment : ℚ) : ℚ :=
  max minMoodLevel (min maxMoodLevel (moodLevel + sentiment))

/-- `analyzeContext`: push each matching fixed topic onto `memory.context`. -/
def analyzeContext (content : String) (context : List String) : List String :=
  ["coding", "debugging", "testing", "deployment"].foldl
    (fun ctx topic =>
      if strContains (jsToLower content) topic then ctx ++ [topic] else ctx)
    context

/-- `updateMemory`: push onto short-term memory (shift when over 10), bump
the user's long-term interaction count, update context. -/
def updateMemory (message : Message) (mem : Memory) : Memory :=
  let pushed := mem.shortTerm ++ [message.content]
  { shortTerm := if 10 < pushed.length then pushed.drop 1 else pushed
    longTerm := fun name =>
      if name = message.userName then mem.longTerm message.userName + 1
      else mem.longTerm name
    context := analyzeContext message.content mem.context }

/-- `learn`: bump a trait's level by the learning rate when one of the
analysis topics occurs inside one of its response templates. -/
def learn (analysis : NLPAnalysis) (learningRate : ℚ)
    (personality : List PersonalityTrait) : List PersonalityTrait :=
  personality.map (fun trait =>
    if analysis.topics.any (fun topic =>
        trait.responses.any (fun r => strContains r topic))
    then { trait with level := trait.level + learningRate }
    else trait)

def isUserInCooldown (userId : String) (now : Nat)
    (st : EnhancedBotState) : Bool :=
  match st.cooldowns userId with
  | some lastUse => now - lastUse < cooldownDuration
  | none => false

def setCooldown (userId : String) (now : Nat)
    (cooldowns : String → Option Nat) : String → Option Nat :=
  fun u => if u = userId then some now else cooldowns u

def getStats (userName : String) (st : EnhancedBotState) : String :=
  let interactions := st.memory.longTerm userName
  "Stats for " ++ userName ++ ":\nInteractions: " ++ toString interactions
    ++ "\nMood: " ++ toString st.moodLevel

/-- `handleCommand` (index.ts lines 332–346): strip the prefix, split, and
dispatch on the lowercased command word.  Only reads the state. -/
def handleCommand (message : Message) (st : EnhancedBotState) : String :=
  let parts := jsSplitOnSpace
    (jsTrim (jsSlice message.content (jsLength st.commandPrefix)))
  let command := jsToLower (parts.headD "")
  if command == "mood" then "Current mood level: " ++ toString st.moodLevel
  else if command == "stats" then getStats message.userName st
  else "Unknown command. Try !mood or !stats"

/-- A stand-in for the `undefined` that JS `personality[0]` yields on an
empty array (the class initializer's personality list is non-empty, so it
is never selected there). -/
def dummyTrait : PersonalityTrait := { name := "", level := 0, responses := [] }

/-- `selectPersonalityTrait`: positive mood prefers "wit", otherwise
"sarcasm"; fall back to the first trait. -/
def selectPersonalityTrait (st : EnhancedBotState) : PersonalityTrait :=
  let moodFactor := if 0 < st.moodLevel then "wit" else "sarcasm"
  (st.personality.find? (fun trait => trait.name == moodFactor)).getD
    (st.personality.headD dummyTrait)

/-- `getRandomResponse`: `rand` models the `Math.floor(Math.random() *
length)` draw. -/
def getRandomResponse (trait : PersonalityTrait) (rand : Nat) : String :=
  trait.responses.getD (rand % trait.responses.length) ""

def applyMoodModifier (response : String) (moodLevel : ℚ) : String :=
  if 5 < moodLevel then response ++ " 😄"
  else if moodLevel < -5 then response ++ " 😠"
  else response

/-- `generateResponse` (index.ts lines 281–295). -/
def generateResponse (message : Message) (analysis : NLPAnalysis)
    (rand : Nat) (st : EnhancedBotState) : String :=
  let trait := selectPersonalityTrait st
  let response := getRandomResponse trait rand
  let response := applyMoodModifier response st.moodLevel
  jsReplace response "{userName}" message.userName

/-- `handleMessage` (index.ts lines 207–245): cooldown check first
(returning `null` — `none`), then the command branch, then the
analysis/mood/memory/learning/response pipeline with the cooldown set at
the end.  Every step of the embedded body is total, so the source's
catch-all branch (which returns a fixed apology string) is unreachable
here. -/
def handleMessage (message : Message) (now rand : Nat)
    (st : EnhancedBotState) : Option String × EnhancedBotState :=
  if isUserInCooldown message.userId now st then (none, st)
  else if strStartsWith message.content st.commandPrefix then
    (some (handleCommand message st), st)
  else
    let analysis := analyzeMessage message.content
    let st1 := { st with moodLevel := updateMood st.moodLevel analysis.sentiment }
    let st2 := { st1 with memory := updateMemory message st1.memory }
    let st3 := { st2 with
      personality := learn analysis st2.learningRate st2.personality }
    let response := generateResponse message analysis rand st3
    let st4 := { st3 with cooldowns := setCooldown message.userId now st3.cooldowns }
    (some response, st4)

/-- The log events the Redis-backed rate limiter emits. -/
inductive LogEvent
  | redisIncrementError
deriving DecidableEq

/-- `incrementCounter` (index.ts lines 520–532): `redis.incr` wrapped in
try/catch; any storage fault is logged and the method returns 0.  The two
oracle arguments are the outcomes of the `incr` and the conditional
`expire` calls. -/
def incrementCounter (incrRes : Except StorageError Nat)
    (expireRes : Except StorageError Unit) : Nat × List LogEvent :=
  match incrRes with
  | .error _ => (0, [LogEvent.redisIncrementError])
  | .ok count =>
      if count == 1 then
        match expireRes with
        | .error _ => (0, [LogEvent.redisIncrementError])
        | .ok _ => (count, [])
      else (count, [])

/-- `checkRateLimit` (index.ts lines 449–460): Redis counter with limit 5
per minute; the `expire` call it makes itself (outside `incrementCounter`'s
try/catch) can propagate a storage error. -/
def checkRateLimit (userId : String) (incrRes : Except StorageError Nat)
    (expireRes expireRes2 : Except StorageError Unit) :
    Except StorageError (Bool × List LogEvent) :=
  let key := "ratelimit:" ++ userId
  let limit : Nat := 5
  let r := incrementCounter incrRes expireRes
  if r.1 == 1 then
    match expireRes2 with
    | .error e => .error e
    | .ok _ => .ok (decide (r.1 ≤ limit), r.2)
  else .ok (decide (r.1 ≤ limit), r.2)

end IndexTs

/-! ## `src/unnamed/part_004` — config.ts / utils.ts / roast-bot.ts -/

namespace Part004

/-- `CONFIG.DEFAULT_SENSITIVITY_LEVEL`. -/
def DEFAULT_SENSITIVITY_LEVEL : ℚ := 0.5

def positiveWords : List String :=
  ["good", "great", "awesome", "excellent", "perfect", "thanks"]

def negativeWords : List String :=
  ["bad", "terrible", "awful", "horrible", "wrong", "stupid"]

/-- `calculateSentiment` of `utils.ts` (part_004 lines 183–197): ±0.2 per
word-list hit over the whitespace-split lowercased text, the sum clamped
into `[-1, 1]` by `Math.max(Math.min(sentiment, 1), -1)`. -/
def calculateSentiment (text : String) : ℚ :=
  let words := jsSplitWS (jsToLower text)
  let sentiment := words.foldl
    (fun sentiment word =>
      let s1 := if positiveWords.contains word then sentiment + 0.2 else sentiment
      if negativeWords.contains word then s1 - 0.2 else s1) 0
  max (min sentiment 1) (-1)

structure InteractionHistory where
  timestamp : Nat
  sentiment : ℚ
  responseType : String
  messageContent : String
  botResponse : String
deriving DecidableEq

structure ResponsePreferences where
  witLevel : ℚ
  sarcasmLevel : ℚ
  technicalLevel : ℚ
deriving DecidableEq

structure UserProfile where
  userId : String
  userName : String
  sensitivityLevel : ℚ
  pastInteractions : List InteractionHistory
  preferredTopics : List String
  lastInteraction : Nat
  totalInteractions : Nat
  averageSentiment : ℚ
  responsePreferences : ResponsePreferences
deriving DecidableEq

/-- The Profile Store's state: the `userProfiles` in-memory cache
(`Map<string, UserProfile>`) and the durable Redis copy under the
`user:{userId}` keys.  The JSON serialization of a stored profile is
abstracted away: the store holds the profile itself (round-tripping is a
separate concern from the cache logic the claims are about). -/
structure ProfileState where
  userProfiles : String → Option UserProfile
  redisStore : String → Option UserProfile

/-- `createNewUserProfile` (part_004 lines 382–403): builds the default
profile, caches it, and writes it through to storage (TTL elided). -/
def createNewUserProfile (userId : String) (now : Nat) (st : ProfileState) :
    UserProfile × ProfileState :=
  let profile : UserProfile :=
    { userId := userId
      userName := ""
      sensitivityLevel := DEFAULT_SENSITIVITY_LEVEL
      pastInteractions := []
      preferredTopics := []
      lastInteraction := now
      totalInteractions := 0
      averageSentiment := 0
      responsePreferences :=
        { witLevel := 0.5, sarcasmLevel := 0.5, technicalLevel := 0.5 } }
  (profile,
    { userProfiles := fun u => if u = userId then some profile else st.userProfiles u
      redisStore := fun u => if u = userId then some profile else st.redisStore u })

/-- `getUserProfile` (part_004 lines 363–380): cache hit → return it; else
read through from storage and cache; else (or when the storage read
faults, `redisFault`) create, cache and return the default profile. -/
def getUserProfile (userId : String) (now : Nat) (redisFault : Bool)
    (st : ProfileState) : UserProfile × ProfileState :=
  match st.userProfiles userId with
  | some cachedProfile => (cachedProfile, st)
  | none =>
      if redisFault then createNewUserProfile userId now st
      else
        match st.redisStore userId with
        | some stored =>
            (stored, { st with userProfiles :=
              fun u => if u = userId then some stored else st.userProfiles u })
        | none => createNewUserProfile userId now st

end Part004

/-! ## `src/roastbot2.ts` -/

namespace Roastbot2

structure Message where
  content : String
  userId : String
  userName : String

/-- The `MessageSchema` of `roastbot2.ts` (lines 9–13):
`z.string().min(1).max(1000)` — this variant caps content at 1000
characters, not 2000. -/
def MessageSchema_parse (m : Message) : Except ValidationError Message :=
  if jsLength m.content < 1 then .error .contentTooShort
  else if 1000 < jsLength m.content then .error .contentTooLong
  else .ok m

end Roastbot2

/-! ## Rate limiter lemmas and claim C1 -/

namespace Part002

theorem runState_append (L1 L2 : List (String × Nat)) (st : RateLimits) :
    runState (L1 ++ L2) st = runState L2 (runState L1 st) := by
  simp [runState, List.foldl_append]

theorem admitted_append (L1 L2 : List (String × Nat)) (st : RateLimits) :
    admitted (L1 ++ L2) st = admitted L1 st ++ admitted L2 (runState L1 st) := by
  induction L1 generalizing st with
  | nil => simp [admitted, runState]
  | cons c rest ih =>
      simp only [List.cons_append, admitted, runState, List.foldl_cons] at ih ⊢
      rw [show rest.append L2 = rest ++ L2 from rfl, ih, List.append_assoc]

theorem mem_admitted {e : String × Nat} :
    ∀ {L : List (String × Nat)} {st : RateLimits}, e ∈ admitted L st → e ∈ L := by
  intro L
  induction L with
  | nil => intro st h; simp [admitted] at h
  | cons c rest ih =>
      intro st h
      simp only [admitted, List.mem_append] at h
      rcases h with h | h
      · rcases Bool.eq_false_or_eq_true (checkRateLimit c.1 c.2 st).1 with hb | hb <;>
          simp [hb] at h
        simp [h]
      · exact List.mem_cons_of_mem _ (ih h)

theorem admittedTimes_append (u : String) (A B : List (String × Nat)) :
    admittedTimes u (A ++ B) = admittedTimes u A ++ admittedTimes u B := by
  simp [admittedTimes]

theorem admittedTimes_self (c : String × Nat) : admittedTimes c.1 [c] = [c.2] := by
  simp [admittedTimes, List.filter_cons]

theorem admittedTimes_other {u : String} (c : String × Nat) (h : ¬ u = c.1) :
    admittedTimes u [c] = [] := by
  simp [admittedTimes, List.filter_cons, beq_eq_false_iff_ne.mpr (Ne.symm h)]

theorem mem_admittedTimes {u : String} {s : Nat} {evs : List (String × Nat)}
    (h : s ∈ admittedTimes u evs) : ∃ e ∈ evs, e.2 = s := by
  simp only [admittedTimes, List.mem_map, List.mem_filter] at h
  obtain ⟨e, ⟨he, _⟩, hs⟩ := h
  exact ⟨e, he, hs⟩

theorem filter_window_shrink (l : List Nat) {tc t : Nat} (htc : tc ≤ t) :
    (l.filter (fun s => tc - s < RATE_LIMIT_WINDOW)).filter
        (fun s => t - s < RATE_LIMIT_WINDOW)
      = l.filter (fun s => t - s < RATE_LIMIT_WINDOW) := by
  induction l with
  | nil => rfl
  | cons a l ih =>
      by_cases hta : t - a < RATE_LIMIT_WINDOW
      · have htca : tc - a < RATE_LIMIT_WINDOW :=
          lt_of_le_of_lt (Nat.sub_le_sub_right htc a) hta
        simp [List.filter_cons, hta, htca, ih]
      · by_cases htcb : tc - a < RATE_LIMIT_WINDOW <;>
          simp [List.filter_cons, hta, htcb, ih]

/-- The inductive invariant of the sliding-window limiter over a call trace
with non-decreasing timestamps: for every upper bound `t` of the trace's
timestamps and every user `u`, the stored timestamp list, pruned to the
trailing window ending at `t`, is exactly the list of `u`'s admitted
timestamps in that window, and its length never exceeds the configured
maximum. -/
theorem rl_invariant (L : List (String × Nat))
    (hmono : (L.map Prod.snd).Pairwise (· ≤ ·)) :
    ∀ t, (∀ e ∈ L, e.2 ≤ t) → ∀ u,
      ((runState L emptyRateLimits u).filter (fun s => t - s < RATE_LIMIT_WINDOW)
          = (admittedTimes u (admitted L emptyRateLimits)).filter
              (fun s => t - s < RATE_LIMIT_WINDOW))
        ∧ ((admittedTimes u (admitted L emptyRateLimits)).filter
              (fun s => t - s < RATE_LIMIT_WINDOW)).length
            ≤ MAX_REQUESTS_PER_MINUTE := by
  induction L using List.reverseRecOn with
  | nil =>
      intro t ht u
      constructor
      · simp [runState, admitted, admittedTimes, emptyRateLimits]
      · simp [admitted, admittedTimes]
  | append_singleton L c ih =>
      rw [List.map_append] at hmono
      have hmonoL : (L.map Prod.snd).Pairwise (· ≤ ·) :=
        (List.pairwise_append.mp hmono).1
      have hub : ∀ e ∈ L, e.2 ≤ c.2 := fun e he =>
        (List.pairwise_append.mp hmono).2.2 e.2 (List.mem_map_of_mem _ he) c.2
          (by simp)
      have ihL := ih hmonoL
      intro t ht u
      have htc : c.2 ≤ t := ht c (by simp)
      have htL : ∀ e ∈ L, e.2 ≤ t := fun e he => ht e (by simp [he])
      have hrun : runState (L ++ [c]) emptyRateLimits
          = (checkRateLimit c.1 c.2 (runState L emptyRateLimits)).2 := by
        rw [runState_append]; rfl
      have hadm : admitted (L ++ [c]) emptyRateLimits
          = admitted L emptyRateLimits ++
            (if (checkRateLimit c.1 c.2 (runState L emptyRateLimits)).1 then [c]
             else []) := by
        rw [admitted_append]; simp [admitted]
      set S := runState L emptyRateLimits with hS
      by_cases hfull : MAX_REQUESTS_PER_MINUTE ≤
          ((S c.1).filter (fun s => c.2 - s < RATE_LIMIT_WINDOW)).length
      · -- over the limit: the call is rejected, state and admitted unchanged
        have hcheck : checkRateLimit c.1 c.2 S = (false, S) := by
          simp [checkRateLimit, hfull]
        rw [hrun, hadm, hcheck]
        simpa using ihL t htL u
      · -- admitted: the pruned list plus the new timestamp is recorded
        have hcheck1 : (checkRateLimit c.1 c.2 S).1 = true := by
          simp [checkRateLimit, hfull]
        have hcheck2 : (checkRateLimit c.1 c.2 S).2 u
            = if u = c.1 then
                (S c.1).filter (fun s => c.2 - s < RATE_LIMIT_WINDOW) ++ [c.2]
              else S u := by
          simp [checkRateLimit, hfull]
        have hadm2 : admitted (L ++ [c]) emptyRateLimits
            = admitted L emptyRateLimits ++ [c] := by
          rw [hadm, hcheck1]; simp
        rw [hrun, hcheck2, hadm2, admittedTimes_append]
        by_cases hu : u = c.1
        · subst hu
          rw [if_pos rfl, admittedTimes_self c]
          simp only [List.filter_append]
          rw [filter_window_shrink _ htc, (ihL t htL c.1).1]
          refine ⟨rfl, ?_⟩
          rw [List.length_append]
          by_cases hw : t - c.2 < RATE_LIMIT_WINDOW
          · have hlen : ((admittedTimes c.1 (admitted L emptyRateLimits)).filter
                (fun s => t - s < RATE_LIMIT_WINDOW)).length
                  < MAX_REQUESTS_PER_MINUTE := by
              rw [← (ihL t htL c.1).1, ← filter_window_shrink (S c.1) htc]
              exact lt_of_le_of_lt (List.length_filter_le _ _)
                (Nat.lt_of_not_le hfull)
            have hfc : List.filter (fun s => decide
                (t - s < RATE_LIMIT_WINDOW)) [c.2] = [c.2] := by
              simp [List.filter_cons, hw]
            rw [hfc]
            simpa using hlen
          · have hfc : List.filter (fun s => decide
                (t - s < RATE_LIMIT_WINDOW)) [c.2] = [] := by
              simp [List.filter_cons, hw]
            rw [hfc]
            simpa using (ihL t htL c.1).2
        · rw [if_neg hu, admittedTimes_other c hu]
          simpa using ihL t htL u

theorem dropWhile_timestamps_gt (calls : List (String × Nat)) (t : Nat)
    (hmono : (calls.map Prod.snd).Pairwise (· ≤ ·)) :
    ∀ e ∈ calls.dropWhile (fun e => e.2 ≤ t), ¬ e.2 ≤ t := by
  induction calls with
  | nil => simp
  | cons c rest ih =>
      rw [List.map_cons, List.pairwise_cons] at hmono
      by_cases hc : c.2 ≤ t
      · rw [List.dropWhile_cons_of_pos (by simpa using hc)]
        exact ih hmono.2
      · rw [List.dropWhile_cons_of_neg (by simpa using hc)]
        intro e he
        rcases List.mem_cons.mp he with rfl | he
        · exact hc
        · exact fun hle =>
            hc (le_trans (hmono.1 e.2 (List.mem_map_of_mem _ he)) hle)

/-- Claim C1: for every user and every sequence of `checkRateLimit` calls
with non-decreasing `Date.now()` timestamps, the limiter never admits more
than `CONFIG.MAX_REQUESTS_PER_MINUTE` requests of one user inside any
trailing `RATE_LIMIT_WINDOW` (60 s) window: each call prunes the user's
recorded timestamps to the window, rejects when the pruned count has
reached the maximum, and otherwise records the current timestamp and
admits. -/
theorem checkRateLimit_window_bound (calls : List (String × Nat))
    (hmono : (calls.map Prod.snd).Pairwise (· ≤ ·)) (u : String) (t : Nat) :
    ((admittedTimes u (admitted calls emptyRateLimits)).filter
        (fun s => s ≤ t && t - s < RATE_LIMIT_WINDOW)).length
      ≤ MAX_REQUESTS_PER_MINUTE := by
  have hsplit : calls.takeWhile (fun e => e.2 ≤ t)
      ++ calls.dropWhile (fun e => e.2 ≤ t) = calls :=
    List.takeWhile_append_dropWhile _ _
  set P := calls.takeWhile (fun e => e.2 ≤ t) with hPdef
  set D := calls.dropWhile (fun e => e.2 ≤ t) with hDdef
  have hPt : ∀ e ∈ P, e.2 ≤ t := fun e he => by
    simpa using List.mem_takeWhile_imp he
  have hDt : ∀ e ∈ D, ¬ e.2 ≤ t := dropWhile_timestamps_gt calls t hmono
  have hmonoP : (P.map Prod.snd).Pairwise (· ≤ ·) :=
    hmono.sublist ((List.takeWhile_sublist _).map _)
  rw [← hsplit, admitted_append, admittedTimes_append, List.filter_append,
    List.length_append]
  have hDzero : (admittedTimes u (admitted D (runState P emptyRateLimits))).filter
      (fun s => s ≤ t && t - s < RATE_LIMIT_WINDOW) = [] := by
    rw [List.filter_eq_nil_iff]
    intro s hs
    obtain ⟨e, he, rfl⟩ := mem_admittedTimes hs
    simp [hDt e (mem_admitted he)]
  have hPeq : (admittedTimes u (admitted P emptyRateLimits)).filter
        (fun s => s ≤ t && t - s < RATE_LIMIT_WINDOW)
      = (admittedTimes u (admitted P emptyRateLimits)).filter
        (fun s => t - s < RATE_LIMIT_WINDOW) := by
    apply List.filter_congr
    intro s hs
    obtain ⟨e, he, rfl⟩ := mem_admittedTimes hs
    simp [hPt e (mem_admitted he)]
  rw [hDzero, hPeq]
  simpa using (rl_invariant P hmonoP t hPt u).2

/-- Witness for C1 at a concrete trace: three calls with non-decreasing
timestamps, with the count of user "u1"'s admitted requests inside the
window ending at time 10 within the bound. -/
theorem checkRateLimit_window_bound_witness :
    ((([("u1", 5), ("u1", 10), ("u2", 10)] : List (String × Nat)).map
        Prod.snd).Pairwise (· ≤ ·))
    ∧ ((admittedTimes "u1"
          (admitted [("u1", 5), ("u1", 10), ("u2", 10)] emptyRateLimits)).filter
            (fun s => s ≤ 10 && 10 - s < RATE_LIMIT_WINDOW)).length
        ≤ MAX_REQUESTS_PER_MINUTE :=
  ⟨by decide, checkRateLimit_window_bound _ (by decide) "u1" 10⟩

end Part002

/-! ## Claim C2 — mood stays in bounds -/

/-- Claim C2: for every initial mood in `[minMoodLevel, maxMoodLevel]` and
every sequence of sentiment updates (each applied by `updateMood`, which
adds the sentiment and clamps), the mood remains within `[-10, 10]` after
every update — every prefix of a sequence being itself a sequence. -/
theorem updateMood_bounded (m0 : ℚ)
    (h : IndexTs.minMoodLevel ≤ m0 ∧ m0 ≤ IndexTs.maxMoodLevel)
    (updates : List ℚ) :
    IndexTs.minMoodLevel ≤ updates.foldl IndexTs.updateMood m0
      ∧ updates.foldl IndexTs.updateMood m0 ≤ IndexTs.maxMoodLevel := by
  induction updates generalizing m0 with
  | nil => exact h
  | cons u us ih =>
      simp only [List.foldl_cons]
      exact ih _ ⟨le_max_left _ _,
        max_le (by norm_num [IndexTs.minMoodLevel, IndexTs.maxMoodLevel])
          (min_le_left _ _)⟩

/-- Witness for C2: starting from mood 0, the updates 5, 7, −30 leave the
mood within bounds. -/
theorem updateMood_bounded_witness :
    (IndexTs.minMoodLevel ≤ (0 : ℚ) ∧ (0 : ℚ) ≤ IndexTs.maxMoodLevel)
    ∧ (IndexTs.minMoodLevel ≤ [(5 : ℚ), 7, -30].foldl IndexTs.updateMood 0
       ∧ [(5 : ℚ), 7, -30].foldl IndexTs.updateMood 0 ≤ IndexTs.maxMoodLevel) :=
  ⟨by norm_num [IndexTs.minMoodLevel, IndexTs.maxMoodLevel],
   updateMood_bounded 0
     (by norm_num [IndexTs.minMoodLevel, IndexTs.maxMoodLevel]) _⟩

/-! ## Claim C3 — sentiment range -/

/-- Claim C3 fails on `src/index.ts`'s `analyzeSentiment`: its weighted sum
is never clamped, and on the input "good great awesome" it returns 3/2,
outside `[-1, 1]`. -/
theorem analyzeSentiment_exceeds_one :
    IndexTs.analyzeSentiment "good great awesome" = 3/2
    ∧ ¬ (IndexTs.analyzeSentiment "good great awesome" ≤ 1) := by
  constructor <;>
  · simp [IndexTs.analyzeSentiment, jsSplitOnSpace, jsToLower, splitOnCharAux,
      IndexTs.positiveWords, IndexTs.negativeWords]
    norm_num

/-- Claim C3 as amended: `calculateSentiment` of part_004's `utils.ts` —
the variant that does clamp — always lies in `[-1, 1]`, for every input
text. -/
theorem calculateSentiment_bounded (text : String) :
    -1 ≤ Part004.calculateSentiment text
      ∧ Part004.calculateSentiment text ≤ 1 := by
  unfold Part004.calculateSentiment
  exact ⟨le_max_right _ _, max_le (min_le_right _ _) (by norm_num)⟩

/-! ## Claim C8 — Redis rate limiter fails open -/

/-- Claim C8: when the Redis-backed `checkRateLimit` of `src/index.ts`
hits a storage fault during the counter increment, the check fails open —
the message is admitted (`true`) — and the fault is logged. -/
theorem checkRateLimit_fails_open (userId : String)
    (expireRes expireRes2 : Except StorageError Unit) :
    IndexTs.checkRateLimit userId (Except.error StorageError.fault)
        expireRes expireRes2
      = Except.ok (true, [IndexTs.LogEvent.redisIncrementError]) := by
  simp [IndexTs.checkRateLimit, IndexTs.incrementCounter]

/-! ## Claim C4 — message-length boundary -/

/-- Claim C4 fails on the `MessageSchema` of `src/roastbot2.ts`: that
variant caps content at `max(1000)`, so a message whose content is exactly
2000 characters is rejected, not accepted. -/
theorem jsLength_mk (l : List Char) : jsLength (String.mk l) = l.length := rfl

theorem roastbot2_rejects_length_2000 :
    Roastbot2.MessageSchema_parse
        { content := String.mk (List.replicate 2000 'a'),
          userId := "u1", userName := "U1" }
      = Except.error ValidationError.contentTooLong := by
  have h : jsLength (String.mk (List.replicate 2000 'a')) = 2000 := by
    rw [jsLength_mk, List.length_replicate]
  rw [Roastbot2.MessageSchema_parse, h]
  norm_num

/-- Claim C4 as amended: against the `MessageSchema` of part_002/part_004
(`min(1).max(2000)`) a content of exactly 2000 characters is accepted,
while 2001 characters and the empty content are rejected with a
`ValidationError`; an invalid message never enters the pipeline —
`handleMessage` answers with the catch-all reply and the rate-limit state
is untouched.  (`src/roastbot2.ts` caps at 1000 instead and rejects a
2000-character content, see the counterexample.) -/
theorem messageSchema_boundary :
    (Part002.MessageSchema_parse
        { content := String.mk (List.replicate 2000 'a'), userId := "u1",
          userName := "U1", mentions := none, timestamp := 0 }
      = Except.ok
        { content := String.mk (List.replicate 2000 'a'), userId := "u1",
          userName := "U1", mentions := none, timestamp := 0 })
    ∧ (Part002.MessageSchema_parse
        { content := String.mk (List.replicate 2001 'a'), userId := "u1",
          userName := "U1", mentions := none, timestamp := 0 }
      = Except.error ValidationError.contentTooLong)
    ∧ (Part002.MessageSchema_parse
        { content := "", userId := "u1", userName := "U1", mentions := none,
          timestamp := 0 }
      = Except.error ValidationError.contentTooShort)
    ∧ (∀ (now rand : Nat) (rateLimits : Part002.RateLimits)
        (ab : String → Except BackendError Part002.NLPAnalysis)
        (rb : String → Except BackendError String)
        (ms : Except StorageError Unit),
        Part002.handleMessage
          { content := String.mk (List.replicate 2001 'a'), userId := "u1",
            userName := "U1", mentions := none, timestamp := 0 }
          now rand rateLimits ab rb ms
        = (Part002.errorReply, rateLimits)) := by
  have h2000 : jsLength (String.mk (List.replicate 2000 'a')) = 2000 := by
    rw [jsLength_mk, List.length_replicate]
  have h2001 : jsLength (String.mk (List.replicate 2001 'a')) = 2001 := by
    rw [jsLength_mk, List.length_replicate]
  have herr : Part002.MessageSchema_parse
      { content := String.mk (List.replicate 2001 'a'), userId := "u1",
        userName := "U1", mentions := none, timestamp := 0 }
      = Except.error ValidationError.contentTooLong := by
    rw [Part002.MessageSchema_parse, h2001]
    norm_num
  refine ⟨?_, herr, ?_, ?_⟩
  · rw [Part002.MessageSchema_parse, h2000]
    norm_num
  · rw [Part002.MessageSchema_parse]
    norm_num [show jsLength "" = 0 from rfl]
  · intro now rand rateLimits ab rb ms
    rw [Part002.handleMessage, herr]

/-! ## Claim C5 — local fallback on backend failure -/

/-- Claim C5: when the generative backend fails on every call, part_002's
`generateResponse` returns the local fallback — the selected trait's first
template with `{userName}` and `{topic}` substituted — and, being a total
function into `String`, never propagates the failure to its caller. -/
theorem generateResponse_backend_failure (message : Part002.Message)
    (analysis : Part002.NLPAnalysis) (rand : Nat)
    (responseBackend : String → Except BackendError String)
    (hfail : ∀ prompt, responseBackend prompt
      = Except.error BackendError.unavailable) :
    Part002.generateResponse message analysis rand responseBackend
      = jsReplace (jsReplace
          ((Part002.selectPersonalityTrait analysis.sentiment).responses.headD "")
          "{userName}" "developer") "{topic}" "coding" := by
  simp [Part002.generateResponse, Part002.getFallbackResponse, hfail]

/-- Witness for C5 at a concrete message, analysis and always-failing
backend. -/
theorem generateResponse_backend_failure_witness :
    Part002.generateResponse
        { content := "hi", userId := "u1", userName := "U1", mentions := none,
          timestamp := 0 }
        Part002.getFallbackAnalysis 0
        (fun _ => Except.error BackendError.unavailable)
      = jsReplace (jsReplace
          ((Part002.selectPersonalityTrait
            Part002.getFallbackAnalysis.sentiment).responses.headD "")
          "{userName}" "developer") "{topic}" "coding" :=
  generateResponse_backend_failure _ _ _ _ (fun _ => rfl)

/-! ## Claim C6 — first-matching-trait selection -/

/-- Claim C6: part_002's `selectPersonalityTrait` iterates the trait set in
its fixed order and returns the first trait whose declared conditions are
satisfied, defaulting to the first trait when none match, so selection
never fails for a non-empty trait set.  On the bot's fixed
`PERSONALITY_TRAITS` the code's JS-truthiness condition check coincides
with the spec's declared-bounds policy (no trait there declares a zero
bound, a sensitivity condition, or a time-of-day condition, so
`profile.sensitivityLevel` plays no role). -/
theorem selectPersonalityTrait_first_match (sentiment : ℚ)
    (personality : List Part002.PersonalityTrait) (hne : personality ≠ []) :
    (Part002.selectPersonalityTraitIn personality sentiment).isSome
    ∧ Part002.selectPersonalityTraitIn Part002.PERSONALITY_TRAITS sentiment
        = Part002.specSelectPersonalityTrait Part002.PERSONALITY_TRAITS
            sentiment := by
  constructor
  · cases hfind : personality.find? (Part002.conditionsPass sentiment) with
    | some t => simp [Part002.selectPersonalityTraitIn, hfind, Option.orElse]
    | none =>
        cases personality with
        | nil => exact absurd rfl hne
        | cons a l =>
            simp [Part002.selectPersonalityTraitIn, hfind, Option.orElse]
  · have e1 : ((-0.5 : ℚ) == 0) = false := by
      rw [beq_eq_false_iff_ne]
      norm_num
    have e2 : ((0.5 : ℚ) == 0) = false := by
      rw [beq_eq_false_iff_ne]
      norm_num
    by_cases h1 : (-0.5 : ℚ) ≤ sentiment <;> by_cases h2 : sentiment ≤ (0.5 : ℚ) <;>
      simp [Part002.selectPersonalityTraitIn, Part002.specSelectPersonalityTrait,
        Part002.PERSONALITY_TRAITS, Part002.conditionsPass,
        Part002.specConditionsSatisfied, List.find?, h1, h2, e1, e2]

/-- Witness for C6: the fixed trait set is non-empty, selection at
sentiment 0 succeeds and agrees with the spec's policy. -/
theorem selectPersonalityTrait_first_match_witness :
    Part002.PERSONALITY_TRAITS ≠ []
    ∧ ((Part002.selectPersonalityTraitIn Part002.PERSONALITY_TRAITS 0).isSome
      ∧ Part002.selectPersonalityTraitIn Part002.PERSONALITY_TRAITS 0
          = Part002.specSelectPersonalityTrait Part002.PERSONALITY_TRAITS 0) :=
  ⟨by simp [Part002.PERSONALITY_TRAITS],
   selectPersonalityTrait_first_match 0 _
     (by simp [Part002.PERSONALITY_TRAITS])⟩

/-! ## Claim C7 — every path returns a textual reply -/

/-- Claim C7 as amended, for part_002's `handleMessage`: whatever the
validation outcome, the rate-limit decision, the backend behaviour and the
metrics-storage outcome, every path produces the specified textual reply —
the catch-all apology on a validation or storage error, the throttling
notice when rate-limited, and the composed (or fallback) response
otherwise.  The function is total, so no error escapes it.  (The claim as
frozen also covers `src/index.ts`'s `handleMessage`, whose cooldown path
returns `null` instead of a reply — see the counterexample.) -/
theorem handleMessage_total_reply (message : Part002.Message) (now rand : Nat)
    (rateLimits : Part002.RateLimits)
    (ab : String → Except BackendError Part002.NLPAnalysis)
    (rb : String → Except BackendError String)
    (ms : Except StorageError Unit) :
    (∀ e, Part002.MessageSchema_parse message = Except.error e →
      (Part002.handleMessage message now rand rateLimits ab rb ms).1
        = Part002.errorReply)
    ∧ (Part002.MessageSchema_parse message = Except.ok message →
        (Part002.checkRateLimit message.userId now rateLimits).1 = false →
        (Part002.handleMessage message now rand rateLimits ab rb ms).1
          = Part002.rateLimitReply)
    ∧ (Part002.MessageSchema_parse message = Except.ok message →
        (Part002.checkRateLimit message.userId now rateLimits).1 = true →
        ms = Except.error StorageError.fault →
        (Part002.handleMessage message now rand rateLimits ab rb ms).1
          = Part002.errorReply)
    ∧ (Part002.MessageSchema_parse message = Except.ok message →
        (Part002.checkRateLimit message.userId now rateLimits).1 = true →
        ms = Except.ok () →
        (Part002.handleMessage message now rand rateLimits ab rb ms).1
          = Part002.generateResponse message
              (Part002.analyzeMessage message ab) rand rb) := by
  refine ⟨?_, ?_, ?_, ?_⟩
  · intro e he
    rw [Part002.handleMessage, he]
  · intro hok hrl
    rw [Part002.handleMessage, hok]
    simp [hrl]
  · intro hok hrl hms
    rw [Part002.handleMessage, hok]
    simp [hrl, hms]
  · intro hok hrl hms
    rw [Part002.handleMessage, hok]
    simp [hrl, hms]

/-- Claim C7 fails on `src/index.ts`'s `handleMessage`: a user in cooldown
gets `null` back — no textual reply — rather than a best-effort reply. -/
theorem handleMessage_cooldown_returns_none :
    (IndexTs.handleMessage
        { content := "hello there", userId := "user123", userName := "Tester",
          mentions := [] }
        2000 0
        { IndexTs.initialState 0 with
            cooldowns := fun u => if u = "user123" then some 1000 else none }).1
      = none := by
  rw [IndexTs.handleMessage]
  simp [IndexTs.isUserInCooldown, IndexTs.cooldownDuration,
    IndexTs.initialState]

/-! ## Claim C9 — profile store: default creation and idempotent get -/

/-- Claim C9: part_004's `getUserProfile` creates and returns the default
profile when none exists (cache and storage both empty, or the storage
read faults), and is idempotent: a second `get` with no intervening update
— whatever its own `Date.now()` or storage behaviour — returns a profile
field-for-field equal to the first, because every path of the first call
leaves the returned profile in the cache. -/
theorem getUserProfile_idempotent (userId : String) (now1 now2 : Nat)
    (f1 f2 : Bool) (st : Part004.ProfileState) :
    (Part004.getUserProfile userId now2 f2
        (Part004.getUserProfile userId now1 f1 st).2).1
      = (Part004.getUserProfile userId now1 f1 st).1
    ∧ (st.userProfiles userId = none → st.redisStore userId = none →
        (Part004.getUserProfile userId now1 f1 st).1
          = (Part004.createNewUserProfile userId now1 st).1) := by
  have hcache : ((Part004.getUserProfile userId now1 f1 st).2).userProfiles
      userId = some ((Part004.getUserProfile userId now1 f1 st).1) := by
    rw [Part004.getUserProfile]
    cases hc : st.userProfiles userId with
    | some p => simpa using hc
    | none =>
        cases f1 with
        | true => simp [Part004.createNewUserProfile]
        | false =>
            cases hr : st.redisStore userId with
            | some stored => simp
            | none => simp [Part004.createNewUserProfile]
  constructor
  · conv_lhs => rw [Part004.getUserProfile]
    rw [hcache]
  · intro h1 h2
    rw [Part004.getUserProfile, h1]
    cases f1 with
    | true => rfl
    | false =>
        rw [h2]
        rfl

/-! ## Claim C10 — the command branch leaves the state untouched -/

/-- Claim C10 as amended: for every message whose content starts with the
command prefix, sent by a user **not in cooldown**, `src/index.ts`'s
`handleMessage` answers via `handleCommand` and skips the rest of the
pipeline, returning the state unchanged — in particular the mood level,
the short-term/long-term memory and the personality trait levels are
exactly as before: no NLP analysis, mood update or learning step runs. -/
theorem handleMessage_command_frame (message : IndexTs.Message)
    (now rand : Nat) (st : IndexTs.EnhancedBotState)
    (hcool : IndexTs.isUserInCooldown message.userId now st = false)
    (hcmd : strStartsWith message.content st.commandPrefix = true) :
    IndexTs.handleMessage message now rand st
      = (some (IndexTs.handleCommand message st), st) := by
  rw [IndexTs.handleMessage]
  simp [hcool, hcmd]

/-- Witness for C10 at a concrete input: the fresh bot state (nobody in
cooldown, prefix "!") and the message "!mood". -/
theorem handleMessage_command_frame_witness :
    (IndexTs.isUserInCooldown "u1" 0 (IndexTs.initialState 0) = false
      ∧ strStartsWith "!mood" (IndexTs.initialState 0).commandPrefix = true)
    ∧ IndexTs.handleMessage
        { content := "!mood", userId := "u1", userName := "U1", mentions := [] }
        0 0 (IndexTs.initialState 0)
      = (some (IndexTs.handleCommand
          { content := "!mood", userId := "u1", userName := "U1", mentions := [] }
          (IndexTs.initialState 0)), IndexTs.initialState 0) :=
  ⟨⟨rfl, by decide⟩,
   handleMessage_command_frame _ _ _ _ rfl (by decide)⟩

/-- Claim C10 as frozen fails on the cooldown path: the cooldown check
precedes the command branch, so a "!"-prefixed message from a user in
cooldown is answered with `null`, not via the command handler (the state
is still untouched there). -/
theorem handleMessage_command_in_cooldown :
    (IndexTs.handleMessage
        { content := "!mood", userId := "u9", userName := "U9", mentions := [] }
        500 0
        { IndexTs.initialState 0 with
            cooldowns := fun u => if u = "u9" then some 400 else none }).1
      = none
    ∧ (IndexTs.handleMessage
        { content := "!mood", userId := "u9", userName := "U9", mentions := [] }
        500 0
        { IndexTs.initialState 0 with
            cooldowns := fun u => if u = "u9" then some 400 else none }).1
      ≠ some (IndexTs.handleCommand
          { content := "!mood", userId := "u9", userName := "U9", mentions := [] }
          { IndexTs.initialState 0 with
              cooldowns := fun u => if u = "u9" then some 400 else none }) := by
  have h : (IndexTs.handleMessage
      { content := "!mood", userId := "u9", userName := "U9", mentions := [] }
      500 0
      { IndexTs.initialState 0 with
          cooldowns := fun u => if u = "u9" then some 400 else none }).1
      = none := by
    rw [IndexTs.handleMessage]
    simp [IndexTs.isUserInCooldown, IndexTs.cooldownDuration]
  exact ⟨h, by rw [h]; exact fun hx => Option.noConfusion hx⟩
